import Mathlib

/-!
Shallow embedding of the Genovia ROI calculator (`src/app.py`) and proofs of
the specified properties of its computational core.

Modelling conventions:
* Python floats are modelled as exact rationals (`ℚ`); the quantities in every
  claim are small exact decimals, on which IEEE-754 doubles and rationals agree.
* Python ints (`num_cases`, `tx_per_case`) are modelled as `ℤ`.
* A tier dictionary is a record; the optional `tx_per_case` key of a tier
  mapping passed to `calc_roi` is an `Option ℤ` field (`tier.get("tx_per_case",
  TX_PER_CASE_DEFAULT)` becomes `Option.getD`).
* Python truthiness tests `if total_revenue` / `if total_cost` are `≠ 0` tests.
* `calc_roi` returns `None` for `breakeven_txs` when profit per treatment is
  not strictly positive; this is an `Option ℚ`.
-/

namespace Genovia

/-- A tier dictionary as built by the config loader of `app.py` (lines 34-48)
and as consumed by `calc_roi`.  `tx_per_case` is optional because `calc_roi`
reads it with `tier.get("tx_per_case", TX_PER_CASE_DEFAULT)`. -/
structure Tier where
  description : String
  case_price : ℚ
  cost_per_tx : ℚ
  savings_vs_standard_pct : ℚ
  tx_per_case : Option ℤ
  default_clinic_price_per_tx : ℚ
  default_extra_cost_per_tx : ℚ
  default_min_cases : ℤ
  default_max_cases : ℤ
deriving DecidableEq, Repr

/-- The result dictionary returned by `calc_roi` (`src/app.py` lines 96-112). -/
structure ROIResult where
  total_cases : ℤ
  total_txs : ℤ
  product_cost : ℚ
  shipping_cost : ℚ
  total_cost : ℚ
  revenue_per_tx : ℚ
  cost_per_tx_product : ℚ
  extra_cost_per_tx : ℚ
  total_cost_per_tx : ℚ
  profit_per_tx : ℚ
  total_revenue : ℚ
  total_profit : ℚ
  margin_pct : ℚ
  roi_pct : ℚ
  breakeven_txs : Option ℚ
deriving DecidableEq, Repr

/-- `calc_roi` (`src/app.py` lines 73-112).  The module-level global
`TX_PER_CASE_DEFAULT` consulted by `tier.get` is passed explicitly as the
first argument. -/
def calc_roi (txPerCaseDefault : ℤ) (tier : Tier) (num_cases : ℤ)
    (price_per_tx extra_cost_per_tx shipping_cost : ℚ) : ROIResult :=
  let case_price := tier.case_price
  let cost_per_tx_product := tier.cost_per_tx
  let tx_per_case := tier.tx_per_case.getD txPerCaseDefault
  let total_cases := num_cases
  let total_txs := total_cases * tx_per_case
  let product_cost := (total_cases : ℚ) * case_price
  let total_cost := product_cost + shipping_cost
  let total_cost_per_tx := cost_per_tx_product + extra_cost_per_tx
  let revenue_per_tx := price_per_tx
  let profit_per_tx := revenue_per_tx - total_cost_per_tx
  let total_revenue := revenue_per_tx * (total_txs : ℚ)
  let total_profit := profit_per_tx * (total_txs : ℚ)
  let margin_pct := if total_revenue ≠ 0 then total_profit / total_revenue * 100 else 0
  let roi_pct := if total_cost ≠ 0 then total_profit / total_cost * 100 else 0
  let breakeven_txs := if profit_per_tx > 0 then some (total_cost / profit_per_tx) else none
  { total_cases := total_cases
    total_txs := total_txs
    product_cost := product_cost
    shipping_cost := shipping_cost
    total_cost := total_cost
    revenue_per_tx := revenue_per_tx
    cost_per_tx_product := cost_per_tx_product
    extra_cost_per_tx := extra_cost_per_tx
    total_cost_per_tx := total_cost_per_tx
    profit_per_tx := profit_per_tx
    total_revenue := total_revenue
    total_profit := total_profit
    margin_pct := margin_pct
    roi_pct := roi_pct
    breakeven_txs := breakeven_txs }

/-- One row of the tier-comparison table built by the comparison loop
(`src/app.py` lines 432-448): the Python dict has exactly the keys
`Tier`, `Cost per treatment`, `Total Profit`, `ROI %`. -/
structure ComparisonRow where
  tier_name : String
  cost_per_tx_product : ℚ
  total_profit : ℚ
  roi_pct : ℚ
deriving DecidableEq, Repr

/-- The tier-comparison loop of `src/app.py` (lines 432-448): for each catalog
entry, in catalog order, run `calc_roi` under the fixed scenario and keep
`(tier name, cost_per_tx_product, total_profit, roi_pct)`. -/
def compareTiers (txPerCaseDefault : ℤ) (catalog : List (String × Tier))
    (num_cases : ℤ) (price_per_tx extra_cost_per_tx shipping_cost : ℚ) :
    List ComparisonRow :=
  catalog.map fun entry =>
    let r := calc_roi txPerCaseDefault entry.2 num_cases price_per_tx
      extra_cost_per_tx shipping_cost
    { tier_name := entry.1
      cost_per_tx_product := r.cost_per_tx_product
      total_profit := r.total_profit
      roi_pct := r.roi_pct }

/-! ### Field lemmas for `calc_roi` -/

theorem calc_roi_total_cases (d : ℤ) (tier : Tier) (n : ℤ) (p e s : ℚ) :
    (calc_roi d tier n p e s).total_cases = n := rfl

theorem calc_roi_total_txs (d : ℤ) (tier : Tier) (n : ℤ) (p e s : ℚ) :
    (calc_roi d tier n p e s).total_txs = n * tier.tx_per_case.getD d := rfl

theorem calc_roi_product_cost (d : ℤ) (tier : Tier) (n : ℤ) (p e s : ℚ) :
    (calc_roi d tier n p e s).product_cost = (n : ℚ) * tier.case_price := rfl

theorem calc_roi_shipping_cost (d : ℤ) (tier : Tier) (n : ℤ) (p e s : ℚ) :
    (calc_roi d tier n p e s).shipping_cost = s := rfl

theorem calc_roi_total_cost (d : ℤ) (tier : Tier) (n : ℤ) (p e s : ℚ) :
    (calc_roi d tier n p e s).total_cost = (n : ℚ) * tier.case_price + s := rfl

theorem calc_roi_revenue_per_tx (d : ℤ) (tier : Tier) (n : ℤ) (p e s : ℚ) :
    (calc_roi d tier n p e s).revenue_per_tx = p := rfl

theorem calc_roi_cost_per_tx_product (d : ℤ) (tier : Tier) (n : ℤ) (p e s : ℚ) :
    (calc_roi d tier n p e s).cost_per_tx_product = tier.cost_per_tx := rfl

theorem calc_roi_extra_cost_per_tx (d : ℤ) (tier : Tier) (n : ℤ) (p e s : ℚ) :
    (calc_roi d tier n p e s).extra_cost_per_tx = e := rfl

theorem calc_roi_total_cost_per_tx (d : ℤ) (tier : Tier) (n : ℤ) (p e s : ℚ) :
    (calc_roi d tier n p e s).total_cost_per_tx = tier.cost_per_tx + e := rfl

theorem calc_roi_profit_per_tx (d : ℤ) (tier : Tier) (n : ℤ) (p e s : ℚ) :
    (calc_roi d tier n p e s).profit_per_tx = p - (tier.cost_per_tx + e) := rfl

theorem calc_roi_total_revenue (d : ℤ) (tier : Tier) (n : ℤ) (p e s : ℚ) :
    (calc_roi d tier n p e s).total_revenue
      = p * ((n * tier.tx_per_case.getD d : ℤ) : ℚ) := rfl

theorem calc_roi_total_profit (d : ℤ) (tier : Tier) (n : ℤ) (p e s : ℚ) :
    (calc_roi d tier n p e s).total_profit
      = (p - (tier.cost_per_tx + e)) * ((n * tier.tx_per_case.getD d : ℤ) : ℚ) := rfl

theorem calc_roi_margin_pct (d : ℤ) (tier : Tier) (n : ℤ) (p e s : ℚ) :
    (calc_roi d tier n p e s).margin_pct
      = if (calc_roi d tier n p e s).total_revenue ≠ 0 then
          (calc_roi d tier n p e s).total_profit
            / (calc_roi d tier n p e s).total_revenue * 100
        else 0 := rfl

theorem calc_roi_roi_pct (d : ℤ) (tier : Tier) (n : ℤ) (p e s : ℚ) :
    (calc_roi d tier n p e s).roi_pct
      = if (calc_roi d tier n p e s).total_cost ≠ 0 then
          (calc_roi d tier n p e s).total_profit
            / (calc_roi d tier n p e s).total_cost * 100
        else 0 := rfl

theorem calc_roi_breakeven_txs (d : ℤ) (tier : Tier) (n : ℤ) (p e s : ℚ) :
    (calc_roi d tier n p e s).breakeven_txs
      = if (calc_roi d tier n p e s).profit_per_tx > 0 then
          some ((calc_roi d tier n p e s).total_cost
            / (calc_roi d tier n p e s).profit_per_tx)
        else none := rfl

/-- The concrete tier of the spec scenario: `case_price=500, cost_per_tx=50,
tx_per_case=10` (informational fields are irrelevant to `calc_roi`). -/
def specTier : Tier :=
  { description := ""
    case_price := 500
    cost_per_tx := 50
    savings_vs_standard_pct := 0
    tx_per_case := some 10
    default_clinic_price_per_tx := 0
    default_extra_cost_per_tx := 0
    default_min_cases := 0
    default_max_cases := 0 }

/-- The full result of `calc_roi` on the spec's concrete scenario
`num_cases=2, price_per_tx=200, extra_cost_per_tx=20, shipping_cost=100`
with `specTier`, as exact rationals. -/
theorem calc_roi_concrete_scenario :
    calc_roi 0 specTier 2 200 20 100
      = { total_cases := 2
          total_txs := 20
          product_cost := 1000
          shipping_cost := 100
          total_cost := 1100
          revenue_per_tx := 200
          cost_per_tx_product := 50
          extra_cost_per_tx := 20
          total_cost_per_tx := 70
          profit_per_tx := 130
          total_revenue := 4000
          total_profit := 2600
          margin_pct := 65
          roi_pct := 2600 / 11
          breakeven_txs := some (110 / 13) } := by
  simp only [calc_roi, specTier]
  norm_num

/-- C1: for every tier and scenario, `calc_roi` returns exactly the metrics
given by the spec's formulas (total_txs, product_cost, total_cost,
total_cost_per_tx, profit_per_tx, total_revenue, total_profit), and on the
concrete spec scenario (tier `case_price=500, cost_per_tx=50, tx_per_case=10`;
scenario `num_cases=2, price_per_tx=200, extra_cost_per_tx=20,
shipping_cost=100`) it returns `total_txs=20, product_cost=1000,
total_cost=1100, total_cost_per_tx=70, profit_per_tx=130, total_revenue=4000,
total_profit=2600, margin_pct=65.0, roi_pct=2600/11≈236.36,
breakeven_txs=110/13≈8.46`. -/
theorem calc_roi_matches_spec_formulas (d : ℤ) (tier : Tier) (t n : ℤ)
    (p e s : ℚ) (ht : tier.tx_per_case = some t) :
    ((calc_roi d tier n p e s).total_txs = n * t
      ∧ (calc_roi d tier n p e s).product_cost = (n : ℚ) * tier.case_price
      ∧ (calc_roi d tier n p e s).total_cost
          = (calc_roi d tier n p e s).product_cost + s
      ∧ (calc_roi d tier n p e s).total_cost_per_tx = tier.cost_per_tx + e
      ∧ (calc_roi d tier n p e s).profit_per_tx
          = p - (calc_roi d tier n p e s).total_cost_per_tx
      ∧ (calc_roi d tier n p e s).total_revenue
          = p * ((calc_roi d tier n p e s).total_txs : ℚ)
      ∧ (calc_roi d tier n p e s).total_profit
          = (calc_roi d tier n p e s).profit_per_tx
              * ((calc_roi d tier n p e s).total_txs : ℚ))
    ∧ ((calc_roi 0 specTier 2 200 20 100).total_txs = 20
      ∧ (calc_roi 0 specTier 2 200 20 100).product_cost = 1000
      ∧ (calc_roi 0 specTier 2 200 20 100).total_cost = 1100
      ∧ (calc_roi 0 specTier 2 200 20 100).total_cost_per_tx = 70
      ∧ (calc_roi 0 specTier 2 200 20 100).profit_per_tx = 130
      ∧ (calc_roi 0 specTier 2 200 20 100).total_revenue = 4000
      ∧ (calc_roi 0 specTier 2 200 20 100).total_profit = 2600
      ∧ (calc_roi 0 specTier 2 200 20 100).margin_pct = 65
      ∧ (calc_roi 0 specTier 2 200 20 100).roi_pct = 2600 / 11
      ∧ |(calc_roi 0 specTier 2 200 20 100).roi_pct - 23636 / 100| < 1 / 100
      ∧ (calc_roi 0 specTier 2 200 20 100).breakeven_txs = some (110 / 13)
      ∧ |((calc_roi 0 specTier 2 200 20 100).breakeven_txs.getD 0)
            - 846 / 100| < 1 / 100) := by
  constructor
  · refine ⟨?_, rfl, rfl, rfl, rfl, rfl, rfl⟩
    rw [calc_roi_total_txs, ht, Option.getD_some]
  · rw [calc_roi_concrete_scenario]
    refine ⟨rfl, rfl, rfl, rfl, rfl, rfl, rfl, rfl, rfl, ?_, rfl, ?_⟩
    · rw [abs_lt]; constructor <;> norm_num
    · rw [abs_lt]
      constructor <;> · simp only [Option.getD_some]; norm_num

theorem calc_roi_matches_spec_formulas_witness :
    specTier.tx_per_case = some 10
      ∧ (calc_roi 0 specTier 2 200 20 100).total_txs = 2 * 10 :=
  ⟨rfl, (calc_roi_matches_spec_formulas 0 specTier 10 2 200 20 100 rfl).1.1⟩

/-- C3: `calc_roi` returns `breakeven_txs = total_cost / profit_per_tx` when
`profit_per_tx > 0` (strictly), and `None` whenever `profit_per_tx ≤ 0`; in
particular when `price_per_tx` equals `total_cost_per_tx` exactly,
`profit_per_tx = 0` and `breakeven_txs` is absent. -/
theorem calc_roi_breakeven_policy (d : ℤ) (tier : Tier) (n : ℤ) (p e s : ℚ) :
    (0 < (calc_roi d tier n p e s).profit_per_tx →
      (calc_roi d tier n p e s).breakeven_txs
        = some ((calc_roi d tier n p e s).total_cost
            / (calc_roi d tier n p e s).profit_per_tx))
    ∧ ((calc_roi d tier n p e s).profit_per_tx ≤ 0 →
      (calc_roi d tier n p e s).breakeven_txs = none)
    ∧ (p = (calc_roi d tier n p e s).total_cost_per_tx →
      (calc_roi d tier n p e s).profit_per_tx = 0
        ∧ (calc_roi d tier n p e s).breakeven_txs = none) := by
  have hbe : ¬ 0 < (calc_roi d tier n p e s).profit_per_tx →
      (calc_roi d tier n p e s).breakeven_txs = none := fun h => by
    rw [calc_roi_breakeven_txs, if_neg h]
  refine ⟨fun h => by rw [calc_roi_breakeven_txs, if_pos h],
    fun h => hbe (not_lt.mpr h), fun hp => ?_⟩
  have h0 : (calc_roi d tier n p e s).profit_per_tx = 0 := by
    rw [calc_roi_profit_per_tx]
    rw [calc_roi_total_cost_per_tx] at hp
    rw [hp]; ring
  exact ⟨h0, hbe (by rw [h0]; exact lt_irrefl 0)⟩

theorem calc_roi_breakeven_policy_witness :
    (calc_roi 0 specTier 2 70 20 100).profit_per_tx ≤ 0
      ∧ (calc_roi 0 specTier 2 70 20 100).breakeven_txs = none := by
  have h : (calc_roi 0 specTier 2 70 20 100).profit_per_tx ≤ 0 := by
    rw [calc_roi_profit_per_tx]; norm_num [specTier]
  exact ⟨h, (calc_roi_breakeven_policy 0 specTier 2 70 20 100).2.1 h⟩

/-- C4: for non-negative finite inputs, `calc_roi` is total (no exception, no
division by zero): zero total revenue yields `margin_pct = 0` and zero total
cost yields `roi_pct = 0` — an explicit policy branch, never NaN or an
error. -/
theorem calc_roi_zero_denominator_policy (d : ℤ) (tier : Tier) (n : ℤ)
    (p e s : ℚ) (hn : 0 ≤ n) (hp : 0 ≤ p) (he : 0 ≤ e) (hs : 0 ≤ s)
    (hcp : 0 ≤ tier.case_price) (hct : 0 ≤ tier.cost_per_tx)
    (htx : 1 ≤ tier.tx_per_case.getD d) :
    ((calc_roi d tier n p e s).total_revenue = 0 →
        (calc_roi d tier n p e s).margin_pct = 0)
    ∧ ((calc_roi d tier n p e s).total_cost = 0 →
        (calc_roi d tier n p e s).roi_pct = 0) := by
  constructor
  · intro h
    rw [calc_roi_margin_pct, if_neg (fun hne => hne h)]
  · intro h
    rw [calc_roi_roi_pct, if_neg (fun hne => hne h)]

theorem calc_roi_zero_denominator_policy_witness :
    (calc_roi 10 specTier 0 200 20 0).total_revenue = 0
      ∧ (calc_roi 10 specTier 0 200 20 0).margin_pct = 0 := by
  have h : (calc_roi 10 specTier 0 200 20 0).total_revenue = 0 := by
    rw [calc_roi_total_revenue]; norm_num
  exact ⟨h, (calc_roi_zero_denominator_policy 10 specTier 0 200 20 0 le_rfl
    (by norm_num) (by norm_num) le_rfl (by norm_num [specTier])
    (by norm_num [specTier]) (by simp [specTier])).1 h⟩

/-- C5: with `num_cases = 0`, `calc_roi` does not fail and returns
`total_txs = 0`, `product_cost = 0`, `total_revenue = 0`, `total_profit = 0`,
and a `roi_pct` that depends only on the shipping cost (the same for any tier
and prices, and `0` when the shipping cost is also `0`). -/
theorem calc_roi_zero_cases (d d' : ℤ) (tier tier' : Tier) (p p' e e' s : ℚ) :
    (calc_roi d tier 0 p e s).total_txs = 0
    ∧ (calc_roi d tier 0 p e s).product_cost = 0
    ∧ (calc_roi d tier 0 p e s).total_revenue = 0
    ∧ (calc_roi d tier 0 p e s).total_profit = 0
    ∧ (calc_roi d tier 0 p e s).roi_pct = (calc_roi d' tier' 0 p' e' s).roi_pct
    ∧ (s = 0 → (calc_roi d tier 0 p e s).roi_pct = 0) := by
  have hroi : ∀ (dd : ℤ) (tt : Tier) (pp ee : ℚ),
      (calc_roi dd tt 0 pp ee s).roi_pct = 0 := by
    intro dd tt pp ee
    rw [calc_roi_roi_pct, calc_roi_total_cost, calc_roi_total_profit]
    split_ifs with h
    · simp
    · rfl
  refine ⟨by rw [calc_roi_total_txs]; exact zero_mul _,
    by rw [calc_roi_product_cost]; simp,
    by rw [calc_roi_total_revenue]; simp,
    by rw [calc_roi_total_profit]; simp,
    (hroi d tier p e).trans (hroi d' tier' p' e').symm,
    fun _ => hroi d tier p e⟩

theorem calc_roi_zero_cases_witness :
    (calc_roi 0 specTier 0 200 20 0).roi_pct = 0 :=
  (calc_roi_zero_cases 0 0 specTier specTier 200 200 20 20 0).2.2.2.2.2 rfl

/-- C6 counterexample: on the spec's own concrete scenario
(`price_per_tx = 200 > 70 = total_cost_per_tx`), `calc_roi` returns
`breakeven_txs = 110/13`, and substituting it into the profit formula
`total_profit = profit_per_tx * total_txs` yields the total cost `1100`,
not a value near `0`: the round-trip law as stated fails. -/
theorem breakeven_roundtrip_counterexample :
    (calc_roi 0 specTier 2 200 20 100).total_cost_per_tx < 200
    ∧ (calc_roi 0 specTier 2 200 20 100).breakeven_txs = some (110 / 13)
    ∧ (calc_roi 0 specTier 2 200 20 100).profit_per_tx * (110 / 13)
        = (calc_roi 0 specTier 2 200 20 100).total_cost
    ∧ (calc_roi 0 specTier 2 200 20 100).profit_per_tx * (110 / 13) = 1100
    ∧ ¬ |(calc_roi 0 specTier 2 200 20 100).profit_per_tx * (110 / 13) - 0|
          < 1 := by
  rw [calc_roi_total_cost_per_tx, calc_roi_profit_per_tx, calc_roi_total_cost,
    calc_roi_breakeven_txs, calc_roi_profit_per_tx, calc_roi_total_cost]
  norm_num [specTier, abs_of_nonneg]

/-- C6 (amended): for scenarios with `price_per_tx > total_cost_per_tx`,
`breakeven_txs = total_cost / profit_per_tx`, and substituting
`total_txs = breakeven_txs` into the profit formula yields
`total_profit = total_cost` exactly — i.e. the net position
`total_profit - total_cost` is `0` (revenue at break-even exactly covers the
order cost), rather than `total_profit` itself being `0`. -/
theorem calc_roi_breakeven_roundtrip (d : ℤ) (tier : Tier) (n : ℤ) (p e s : ℚ)
    (hgt : (calc_roi d tier n p e s).total_cost_per_tx < p) :
    (calc_roi d tier n p e s).breakeven_txs
        = some ((calc_roi d tier n p e s).total_cost
            / (calc_roi d tier n p e s).profit_per_tx)
    ∧ ∀ b, (calc_roi d tier n p e s).breakeven_txs = some b →
        (calc_roi d tier n p e s).profit_per_tx * b
          - (calc_roi d tier n p e s).total_cost = 0 := by
  have hpos : 0 < (calc_roi d tier n p e s).profit_per_tx := by
    rw [calc_roi_profit_per_tx]
    rw [calc_roi_total_cost_per_tx] at hgt
    exact sub_pos.mpr hgt
  have hsome : (calc_roi d tier n p e s).breakeven_txs
      = some ((calc_roi d tier n p e s).total_cost
          / (calc_roi d tier n p e s).profit_per_tx) := by
    rw [calc_roi_breakeven_txs, if_pos hpos]
  refine ⟨hsome, fun b hb => ?_⟩
  rw [hsome] at hb
  have hb2 := Option.some.inj hb
  rw [← hb2, mul_comm,
    div_mul_cancel₀ (calc_roi d tier n p e s).total_cost (ne_of_gt hpos),
    sub_self]

theorem calc_roi_breakeven_roundtrip_witness :
    (calc_roi 0 specTier 2 200 20 100).breakeven_txs
      = some ((calc_roi 0 specTier 2 200 20 100).total_cost
          / (calc_roi 0 specTier 2 200 20 100).profit_per_tx) :=
  (calc_roi_breakeven_roundtrip 0 specTier 2 200 20 100
    (by rw [calc_roi_total_cost_per_tx]; norm_num [specTier])).1

/-- Scaling a guarded percentage ratio by a nonzero common factor in numerator
and denominator leaves it unchanged (including the zero-denominator policy
branch). -/
theorem pct_ratio_scale (k a b : ℚ) (hk : k ≠ 0) :
    (if k * b ≠ 0 then k * a / (k * b) * 100 else 0)
      = (if b ≠ 0 then a / b * 100 else 0) := by
  by_cases h : b = 0
  · rw [if_neg (fun hnb => hnb (by rw [h, mul_zero])), if_neg (fun hnb => hnb h)]
  · rw [if_pos (mul_ne_zero hk h), if_pos h, mul_div_mul_left a b hk]

/-- C7: `roi_pct` is not scale-invariant under fixed flat shipping — on the
spec tier with `shipping_cost = 100`, `num_cases = 1` and `num_cases = 2`
give different `roi_pct` — whereas scaling the shipping cost proportionally
with `num_cases` leaves both `margin_pct` and `roi_pct` unchanged. -/
theorem roi_not_scale_invariant_under_flat_shipping :
    ((calc_roi 0 specTier 1 200 20 100).roi_pct
        ≠ (calc_roi 0 specTier 2 200 20 100).roi_pct)
    ∧ ∀ (d : ℤ) (tier : Tier) (n k : ℤ) (p e s : ℚ), 0 < k →
        (calc_roi d tier (k * n) p e ((k : ℚ) * s)).margin_pct
            = (calc_roi d tier n p e s).margin_pct
        ∧ (calc_roi d tier (k * n) p e ((k : ℚ) * s)).roi_pct
            = (calc_roi d tier n p e s).roi_pct := by
  constructor
  · simp only [calc_roi, specTier]
    norm_num
  · intro d tier n k p e s hk
    have hk0 : (k : ℚ) ≠ 0 := Int.cast_ne_zero.mpr (ne_of_gt hk)
    constructor
    · rw [calc_roi_margin_pct, calc_roi_margin_pct, calc_roi_total_revenue,
        calc_roi_total_revenue, calc_roi_total_profit, calc_roi_total_profit]
      have h1 : p * ((k * n * tier.tx_per_case.getD d : ℤ) : ℚ)
          = (k : ℚ) * (p * ((n * tier.tx_per_case.getD d : ℤ) : ℚ)) := by
        push_cast; ring
      have h2 : (p - (tier.cost_per_tx + e))
            * ((k * n * tier.tx_per_case.getD d : ℤ) : ℚ)
          = (k : ℚ) * ((p - (tier.cost_per_tx + e))
            * ((n * tier.tx_per_case.getD d : ℤ) : ℚ)) := by
        push_cast; ring
      rw [h1, h2, pct_ratio_scale _ _ _ hk0]
    · rw [calc_roi_roi_pct, calc_roi_roi_pct, calc_roi_total_cost,
        calc_roi_total_cost, calc_roi_total_profit, calc_roi_total_profit]
      have h1 : ((k * n : ℤ) : ℚ) * tier.case_price + (k : ℚ) * s
          = (k : ℚ) * ((n : ℚ) * tier.case_price + s) := by
        push_cast; ring
      have h2 : (p - (tier.cost_per_tx + e))
            * ((k * n * tier.tx_per_case.getD d : ℤ) : ℚ)
          = (k : ℚ) * ((p - (tier.cost_per_tx + e))
            * ((n * tier.tx_per_case.getD d : ℤ) : ℚ)) := by
        push_cast; ring
      rw [h1, h2, pct_ratio_scale _ _ _ hk0]

theorem roi_not_scale_invariant_under_flat_shipping_witness :
    (calc_roi 0 specTier (2 * 3) 200 20 ((2 : ℚ) * 100)).roi_pct
      = (calc_roi 0 specTier 3 200 20 100).roi_pct :=
  ((roi_not_scale_invariant_under_flat_shipping).2 0 specTier 3 2 200 20 100
    (by norm_num)).2

/-- C9: losses are reported as strictly negative values, never clamped to the
`0` sentinel: with at least one case, at least one treatment per case, a
positive total cost and a price below the combined per-treatment cost,
`calc_roi` returns `total_profit < 0` and `roi_pct < 0` (and `margin_pct < 0`
when the price is positive), while `breakeven_txs` is absent. -/
theorem calc_roi_negative_metrics (d : ℤ) (tier : Tier) (t n : ℤ) (p e s : ℚ)
    (ht : tier.tx_per_case = some t) (ht1 : 1 ≤ t) (hn : 1 ≤ n)
    (hcost : 0 < (calc_roi d tier n p e s).total_cost)
    (hloss : p < tier.cost_per_tx + e) :
    (calc_roi d tier n p e s).total_profit < 0
    ∧ (calc_roi d tier n p e s).roi_pct < 0
    ∧ (0 < p → (calc_roi d tier n p e s).margin_pct < 0)
    ∧ (calc_roi d tier n p e s).breakeven_txs = none := by
  have hptx : (calc_roi d tier n p e s).profit_per_tx < 0 := by
    rw [calc_roi_profit_per_tx]
    exact sub_neg.mpr hloss
  have htxq : (0 : ℚ) < ((n * tier.tx_per_case.getD d : ℤ) : ℚ) := by
    rw [ht, Option.getD_some]
    have h1 : (1 : ℤ) ≤ n * t :=
      le_trans (by norm_num)
        (mul_le_mul hn ht1 (by norm_num) (le_trans (by norm_num) hn))
    exact_mod_cast lt_of_lt_of_le zero_lt_one h1
  have hprof : (calc_roi d tier n p e s).total_profit < 0 := by
    rw [calc_roi_total_profit]
    rw [calc_roi_profit_per_tx] at hptx
    exact mul_neg_of_neg_of_pos hptx htxq
  refine ⟨hprof, ?_, ?_, ?_⟩
  · rw [calc_roi_roi_pct, if_pos (ne_of_gt hcost)]
    exact mul_neg_of_neg_of_pos (div_neg_of_neg_of_pos hprof hcost)
      (by norm_num)
  · intro hp0
    have hrev : 0 < (calc_roi d tier n p e s).total_revenue := by
      rw [calc_roi_total_revenue]
      exact mul_pos hp0 htxq
    rw [calc_roi_margin_pct, if_pos (ne_of_gt hrev)]
    exact mul_neg_of_neg_of_pos (div_neg_of_neg_of_pos hprof hrev)
      (by norm_num)
  · rw [calc_roi_breakeven_txs, if_neg (not_lt.mpr (le_of_lt hptx))]

theorem calc_roi_negative_metrics_witness :
    (calc_roi 0 specTier 1 60 20 100).total_profit < 0
      ∧ (calc_roi 0 specTier 1 60 20 100).roi_pct < 0
      ∧ (calc_roi 0 specTier 1 60 20 100).margin_pct < 0
      ∧ (calc_roi 0 specTier 1 60 20 100).breakeven_txs = none := by
  have h := calc_roi_negative_metrics 0 specTier 10 1 60 20 100 rfl
    (by norm_num) le_rfl
    (by rw [calc_roi_total_cost]; norm_num [specTier])
    (by norm_num [specTier])
  exact ⟨h.1, h.2.1, h.2.2.1 (by norm_num), h.2.2.2⟩

/-- The second tier of the comparison-row counterexample: same name, same
`cost_per_tx` catalog cost, but `tx_per_case = 5`. -/
def tierB : Tier := { specTier with tx_per_case := some 5 }

/-- C2 counterexample: a comparison row does not carry `profit_per_tx` or
`margin_pct`: two tier/scenario pairs produce the very same comparison row
while the full ROI results differ in both `margin_pct` and `profit_per_tx`,
so a row cannot be the claimed six-component projection. -/
theorem compareTiers_projection_counterexample :
    compareTiers 0 [("Pro", specTier)] 2 200 20 100
        = compareTiers 0 [("Pro", tierB)] 2 330 20 100
    ∧ (calc_roi 0 specTier 2 200 20 100).margin_pct
        ≠ (calc_roi 0 tierB 2 330 20 100).margin_pct
    ∧ (calc_roi 0 specTier 2 200 20 100).profit_per_tx
        ≠ (calc_roi 0 tierB 2 330 20 100).profit_per_tx := by
  refine ⟨?_, ?_, ?_⟩
  · simp only [compareTiers, List.map_cons, List.map_nil, calc_roi, specTier,
      tierB]
    norm_num
  · simp only [calc_roi, specTier, tierB]
    norm_num
  · simp only [calc_roi, specTier, tierB]
    norm_num

/-- C2 (amended): the comparison loop produces exactly one row per catalog
entry, in catalog insertion order regardless of metric values; each row is
the projection `(tier_name, cost_per_tx_product, total_profit, roi_pct)` of
the ROI result for that tier under the fixed scenario (the table's columns
`Tier`, `Cost per treatment`, `Total Profit`, `ROI %`); an empty catalog
yields the empty sequence, not an error. -/
theorem compareTiers_rows (d : ℤ) (catalog : List (String × Tier)) (n : ℤ)
    (p e s : ℚ) :
    (compareTiers d catalog n p e s).length = catalog.length
    ∧ (∀ i : ℕ, (compareTiers d catalog n p e s)[i]?
        = (catalog[i]?).map fun q =>
            { tier_name := q.1
              cost_per_tx_product := (calc_roi d q.2 n p e s).cost_per_tx_product
              total_profit := (calc_roi d q.2 n p e s).total_profit
              roi_pct := (calc_roi d q.2 n p e s).roi_pct })
    ∧ compareTiers d ([] : List (String × Tier)) n p e s = [] := by
  refine ⟨List.length_map _ _, fun i => ?_, rfl⟩
  rw [compareTiers, List.getElem?_map]

/-- One row of `data/tiers.csv` as read by the config loader
(`src/app.py` lines 34-46): every column is present. -/
structure TierRow where
  tier_name : String
  description : String
  case_price : ℚ
  cost_per_tx : ℚ
  savings_vs_standard_pct : ℚ
  tx_per_case : ℤ
  default_clinic_price_per_tx : ℚ
  default_extra_cost_per_tx : ℚ
  default_min_cases : ℤ
  default_max_cases : ℤ
deriving DecidableEq, Repr

/-- The tier dictionary built from one CSV row (`src/app.py` lines 36-46);
`tx_per_case` is always present on a loaded tier. -/
def tierOfRow (r : TierRow) : Tier :=
  { description := r.description
    case_price := r.case_price
    cost_per_tx := r.cost_per_tx
    savings_vs_standard_pct := r.savings_vs_standard_pct
    tx_per_case := some r.tx_per_case
    default_clinic_price_per_tx := r.default_clinic_price_per_tx
    default_extra_cost_per_tx := r.default_extra_cost_per_tx
    default_min_cases := r.default_min_cases
    default_max_cases := r.default_max_cases }

def entryOfRow (r : TierRow) : String × Tier := (r.tier_name, tierOfRow r)

/-- Python dict assignment `d[k] = v` on an insertion-ordered dictionary: if
the key exists its value is replaced in place, otherwise the pair is appended
at the end. -/
def dictInsert (l : List (String × Tier)) (k : String) (v : Tier) :
    List (String × Tier) :=
  if l.any (fun q => q.1 == k) then
    l.map (fun q => if q.1 == k then (q.1, v) else q)
  else l ++ [(k, v)]

/-- `TIERS_BASE` (`src/app.py` lines 34-46): the tier catalog dictionary,
built by inserting each CSV row in file order. -/
def TIERS_BASE (rows : List TierRow) : List (String × Tier) :=
  rows.foldl (fun acc r => dictInsert acc r.tier_name (tierOfRow r)) []

/-- `TX_PER_CASE_DEFAULT` (`src/app.py` line 48):
`list(TIERS_BASE.values())[0]["tx_per_case"]`, the `tx_per_case` of the first
entry of the base catalog (which, being a loaded tier, always has the key;
`getD 0` only peels the `Option`). -/
def TX_PER_CASE_DEFAULT (rows : List TierRow) (h : TIERS_BASE rows ≠ []) : ℤ :=
  (((TIERS_BASE rows).head h).2.tx_per_case).getD 0

theorem dictInsert_fresh (l : List (String × Tier)) (k : String) (v : Tier)
    (hfresh : ∀ q ∈ l, q.1 ≠ k) : dictInsert l k v = l ++ [(k, v)] := by
  rw [dictInsert, if_neg]
  intro hany
  obtain ⟨q, hq, hqk⟩ := List.any_eq_true.mp hany
  exact hfresh q hq (by simpa using hqk)

/-- When the CSV rows carry pairwise-distinct tier names, the catalog
dictionary is just the rows in file order. -/
theorem TIERS_BASE_of_nodup (rows : List TierRow)
    (hnd : (rows.map TierRow.tier_name).Nodup) :
    TIERS_BASE rows = rows.map entryOfRow := by
  suffices h : ∀ (rs : List TierRow) (acc : List (String × Tier)),
      (rs.map TierRow.tier_name).Nodup →
      (∀ r ∈ rs, ∀ q ∈ acc, q.1 ≠ r.tier_name) →
      rs.foldl (fun a r => dictInsert a r.tier_name (tierOfRow r)) acc
        = acc ++ rs.map entryOfRow by
    simpa [TIERS_BASE] using h rows [] hnd (by simp)
  intro rs
  induction rs with
  | nil => intro acc _ _; simp
  | cons r rest ih =>
    intro acc hnd2 hfresh
    rw [List.map_cons] at hnd2
    have hcons := List.nodup_cons.mp hnd2
    have hfresh2 : ∀ r2 ∈ rest,
        ∀ q ∈ acc ++ [(r.tier_name, tierOfRow r)], q.1 ≠ r2.tier_name := by
      intro r2 hr2 q hq
      rcases List.mem_append.mp hq with hq1 | hq1
      · exact hfresh r2 (List.mem_cons_of_mem r hr2) q hq1
      · have hq2 : q = (r.tier_name, tierOfRow r) := by simpa using hq1
        subst hq2
        show r.tier_name ≠ r2.tier_name
        intro hcontra
        exact hcons.1
          (by rw [hcontra]; exact List.mem_map_of_mem TierRow.tier_name hr2)
    rw [List.foldl_cons,
      dictInsert_fresh acc r.tier_name (tierOfRow r)
        (fun q hq => hfresh r (List.mem_cons_self r rest) q hq),
      ih (acc ++ [(r.tier_name, tierOfRow r)]) hcons.2 hfresh2, List.map_cons]
    simp [entryOfRow]

/-- C10: a tier mapping with no `tx_per_case` key does not make `calc_roi`
fail; `calc_roi` falls back to the module-level `TX_PER_CASE_DEFAULT` — the
`tx_per_case` of the first tier loaded into the base catalog — so the result
coincides with the result for the same tier with `tx_per_case` set to that
ambient global value, and `total_txs` is `num_cases` times the ambient
default rather than a function of the tier argument alone. -/
theorem calc_roi_tx_per_case_default (rows : List TierRow)
    (h : TIERS_BASE rows ≠ []) (tier : Tier) (htx : tier.tx_per_case = none)
    (n : ℤ) (p e s : ℚ) :
    calc_roi (TX_PER_CASE_DEFAULT rows h) tier n p e s
        = calc_roi 0
            { tier with tx_per_case := some (TX_PER_CASE_DEFAULT rows h) }
            n p e s
    ∧ ((rows.map TierRow.tier_name).Nodup → ∀ r0 : TierRow,
        rows.head? = some r0 → TX_PER_CASE_DEFAULT rows h = r0.tx_per_case)
    ∧ (∀ d : ℤ, (calc_roi d tier n p e s).total_txs = n * d) := by
  refine ⟨?_, ?_, ?_⟩
  · simp [calc_roi, htx]
  · intro hnd r0 hr0
    rw [TX_PER_CASE_DEFAULT]
    have hb : TIERS_BASE rows = rows.map entryOfRow := TIERS_BASE_of_nodup rows hnd
    cases rows with
    | nil => simp at hr0
    | cons a l =>
      have ha : a = r0 := by simpa using hr0
      subst ha
      have hd : (TIERS_BASE (a :: l)).head h
          = ((a :: l).map entryOfRow).head (by simp) := by
        congr 1
      rw [hd]
      simp [entryOfRow, tierOfRow]
  · intro d
    rw [calc_roi_total_txs, htx, Option.getD_none]

/-- A CSV row used to instantiate the `TX_PER_CASE_DEFAULT` theorems on
concrete data. -/
def sampleRow : TierRow :=
  { tier_name := "Starter"
    description := ""
    case_price := 500
    cost_per_tx := 50
    savings_vs_standard_pct := 0
    tx_per_case := 7
    default_clinic_price_per_tx := 0
    default_extra_cost_per_tx := 0
    default_min_cases := 0
    default_max_cases := 0 }

/-- A tier mapping passed to `calc_roi` without a `tx_per_case` key. -/
def noTxTier : Tier := { specTier with tx_per_case := none }

theorem sampleCatalog_ne_nil : TIERS_BASE [sampleRow] ≠ [] := by
  simp [TIERS_BASE, dictInsert]

theorem calc_roi_tx_per_case_default_witness :
    noTxTier.tx_per_case = none
      ∧ (calc_roi 9 noTxTier 3 200 20 100).total_txs = 3 * 9 :=
  ⟨rfl, (calc_roi_tx_per_case_default [sampleRow] sampleCatalog_ne_nil
    noTxTier rfl 3 200 20 100).2.2 9⟩

/-! ### Session state: base catalogs vs. runtime override copies (C8)

Python dictionaries are mutable heap objects; `tiers_runtime = {k: v.copy()
for k, v in TIERS_BASE.items()}` (`src/app.py` line 261) allocates a fresh
tier dictionary per entry, and the sidebar widgets then assign fields of
those fresh dictionaries only.  The heap of tier dictionaries is modelled as
a list indexed by allocation address; both catalogs hold named references
into it. -/

/-- A placeholder tier used only to totalise heap reads at dangling
addresses. -/
def defaultTier : Tier :=
  { description := ""
    case_price := 0
    cost_per_tx := 0
    savings_vs_standard_pct := 0
    tx_per_case := none
    default_clinic_price_per_tx := 0
    default_extra_cost_per_tx := 0
    default_min_cases := 0
    default_max_cases := 0 }

/-- The module state relevant to a session: the heap of tier dictionaries,
the base and runtime tier catalogs (name → heap address), and the base and
runtime shipping catalogs (immutable float values, so plain association
lists). -/
structure SessionState where
  store : List Tier
  baseRefs : List (String × ℕ)
  runtimeRefs : List (String × ℕ)
  shippingBase : List (String × ℚ)
  shippingRuntime : List (String × ℚ)
deriving Repr

/-- `{k: v.copy() for k, v in TIERS_BASE.items()}`: allocate a fresh copy of
each referenced tier at the end of the heap, returning the grown heap and
the runtime catalog of fresh addresses. -/
def allocCopies : List Tier → List (String × ℕ) → List Tier × List (String × ℕ)
  | store, [] => (store, [])
  | store, q :: rest =>
      let out := allocCopies (store ++ [store.getD q.2 defaultTier]) rest
      (out.1, (q.1, store.length) :: out.2)

/-- `src/app.py` lines 261-262: build the session's runtime catalogs from the
base catalogs (`tiers_runtime` by per-entry `.copy()`, `shipping_runtime` by
`SHIPPING_BASE.copy()`). -/
def initSession (baseStore : List Tier) (baseRefs : List (String × ℕ))
    (shippingBase : List (String × ℚ)) : SessionState :=
  let out := allocCopies baseStore baseRefs
  { store := out.1
    baseRefs := baseRefs
    runtimeRefs := out.2
    shippingBase := shippingBase
    shippingRuntime := shippingBase }

def lookupRef (refs : List (String × ℕ)) (name : String) : Option ℕ :=
  (refs.find? (fun q => q.1 == name)).map (fun q => q.2)

/-- A sidebar field assignment (`src/app.py` lines 267-287 write
`tier["case_price"]`, `tier["cost_per_tx"]`, `tier["tx_per_case"]` of a
runtime tier; a shipping override writes an entry of the runtime shipping
dictionary). -/
inductive Update where
  | setCasePrice (name : String) (v : ℚ)
  | setCostPerTx (name : String) (v : ℚ)
  | setTxPerCase (name : String) (v : ℤ)
  | setShippingCost (name : String) (v : ℚ)

/-- Mutate one field of the runtime tier dictionary named `name` (a no-op if
the session has no such tier). -/
def setTierField (s : SessionState) (name : String) (f : Tier → Tier) :
    SessionState :=
  match lookupRef s.runtimeRefs name with
  | none => s
  | some r => { s with store := s.store.set r (f (s.store.getD r defaultTier)) }

/-- Python dict assignment on the runtime shipping dictionary. -/
def setShipAssoc (l : List (String × ℚ)) (name : String) (v : ℚ) :
    List (String × ℚ) :=
  if l.any (fun q => q.1 == name) then
    l.map (fun q => if q.1 == name then (q.1, v) else q)
  else l ++ [(name, v)]

def applyUpdate (s : SessionState) (u : Update) : SessionState :=
  match u with
  | .setCasePrice n v => setTierField s n (fun t => { t with case_price := v })
  | .setCostPerTx n v => setTierField s n (fun t => { t with cost_per_tx := v })
  | .setTxPerCase n v =>
      setTierField s n (fun t => { t with tx_per_case := some v })
  | .setShippingCost n v =>
      { s with shippingRuntime := setShipAssoc s.shippingRuntime n v }

def applyUpdates (s : SessionState) (us : List Update) : SessionState :=
  us.foldl applyUpdate s

/-- Read the tier dictionary a base-catalog entry refers to. -/
def readBaseTier (s : SessionState) (name : String) : Option Tier :=
  (lookupRef s.baseRefs name).map (fun r => s.store.getD r defaultTier)

/-- Invariant tying a session state to the catalogs it was created from: the
base prefix of the heap is intact, the base refs and base shipping catalog
are untouched, and every runtime ref points past the base prefix. -/
def BaseIntact (baseStore : List Tier) (baseRefs : List (String × ℕ))
    (shippingBase : List (String × ℚ)) (s : SessionState) : Prop :=
  s.store.take baseStore.length = baseStore
  ∧ baseStore.length ≤ s.store.length
  ∧ s.baseRefs = baseRefs
  ∧ s.shippingBase = shippingBase
  ∧ ∀ q ∈ s.runtimeRefs, baseStore.length ≤ q.2

theorem take_set_of_le {α : Type} (l : List α) (i : ℕ) (a : α) (n : ℕ)
    (hn : n ≤ i) : (l.set i a).take n = l.take n := by
  induction l generalizing i n with
  | nil => simp
  | cons x xs ih =>
    cases n with
    | zero => simp
    | succ m =>
      cases i with
      | zero => exact absurd hn (by simp)
      | succ j =>
        simp only [List.set_cons_succ, List.take_succ_cons]
        rw [ih j m (Nat.le_of_succ_le_succ hn)]

theorem allocCopies_store (store : List Tier) (refs : List (String × ℕ)) :
    ∃ ext, (allocCopies store refs).1 = store ++ ext := by
  induction refs generalizing store with
  | nil => exact ⟨[], by simp [allocCopies]⟩
  | cons q rest ih =>
    obtain ⟨ext, hext⟩ := ih (store ++ [store.getD q.2 defaultTier])
    exact ⟨store.getD q.2 defaultTier :: ext, by
      simp only [allocCopies, hext, List.append_assoc, List.singleton_append]⟩

theorem allocCopies_refs (store : List Tier) (refs : List (String × ℕ)) :
    ∀ q ∈ (allocCopies store refs).2, store.length ≤ q.2 := by
  induction refs generalizing store with
  | nil => simp [allocCopies]
  | cons q rest ih =>
    intro q2 hq2
    simp only [allocCopies, List.mem_cons] at hq2
    rcases hq2 with hq2 | hq2
    · rw [hq2]
    · have := ih (store ++ [store.getD q.2 defaultTier]) q2 hq2
      simpa using le_trans (Nat.le_succ store.length) (by simpa using this)

theorem baseIntact_init (baseStore : List Tier)
    (baseRefs : List (String × ℕ)) (shippingBase : List (String × ℚ)) :
    BaseIntact baseStore baseRefs shippingBase
      (initSession baseStore baseRefs shippingBase) := by
  obtain ⟨ext, hext⟩ := allocCopies_store baseStore baseRefs
  refine ⟨?_, ?_, rfl, rfl, ?_⟩
  · show (allocCopies baseStore baseRefs).1.take baseStore.length = baseStore
    rw [hext]
    exact List.take_left baseStore ext
  · show baseStore.length ≤ (allocCopies baseStore baseRefs).1.length
    rw [hext]
    simp
  · exact allocCopies_refs baseStore baseRefs

theorem baseIntact_applyUpdate (baseStore : List Tier)
    (baseRefs : List (String × ℕ)) (shippingBase : List (String × ℚ))
    (s : SessionState) (hs : BaseIntact baseStore baseRefs shippingBase s)
    (u : Update) :
    BaseIntact baseStore baseRefs shippingBase (applyUpdate s u) := by
  obtain ⟨h1, h2, h3, h4, h5⟩ := hs
  have hfield : ∀ (name : String) (f : Tier → Tier),
      BaseIntact baseStore baseRefs shippingBase (setTierField s name f) := by
    intro name f
    rw [setTierField]
    cases hfind : lookupRef s.runtimeRefs name with
    | none => exact ⟨h1, h2, h3, h4, h5⟩
    | some r =>
      have hr : baseStore.length ≤ r := by
        rw [lookupRef] at hfind
        cases hfind2 : s.runtimeRefs.find? (fun q => q.1 == name) with
        | none => rw [hfind2] at hfind; simp at hfind
        | some q =>
          rw [hfind2] at hfind
          have hq2 : q.2 = r := by simpa using hfind
          rw [← hq2]
          exact h5 q (List.mem_of_find?_eq_some hfind2)
      refine ⟨?_, ?_, h3, h4, h5⟩
      · show (s.store.set r _).take baseStore.length = baseStore
        rw [take_set_of_le s.store r _ baseStore.length hr]
        exact h1
      · show baseStore.length ≤ (s.store.set r _).length
        rw [List.length_set]
        exact h2
  cases u with
  | setCasePrice n v => exact hfield n _
  | setCostPerTx n v => exact hfield n _
  | setTxPerCase n v => exact hfield n _
  | setShippingCost n v => exact ⟨h1, h2, h3, h4, h5⟩

theorem baseIntact_applyUpdates (baseStore : List Tier)
    (baseRefs : List (String × ℕ)) (shippingBase : List (String × ℚ))
    (s : SessionState) (hs : BaseIntact baseStore baseRefs shippingBase s)
    (us : List Update) :
    BaseIntact baseStore baseRefs shippingBase (applyUpdates s us) := by
  induction us generalizing s with
  | nil => exact hs
  | cons u rest ih =>
    exact ih (applyUpdate s u)
      (baseIntact_applyUpdate baseStore baseRefs shippingBase s hs u)

theorem readBaseTier_of_baseIntact (baseStore : List Tier)
    (baseRefs : List (String × ℕ)) (shippingBase : List (String × ℚ))
    (s : SessionState) (hs : BaseIntact baseStore baseRefs shippingBase s)
    (hb : ∀ q ∈ baseRefs, q.2 < baseStore.length) (name : String) :
    readBaseTier s name
      = (lookupRef baseRefs name).map (fun r => baseStore.getD r defaultTier) := by
  obtain ⟨h1, h2, h3, h4, h5⟩ := hs
  rw [readBaseTier, h3]
  cases hfind : lookupRef baseRefs name with
  | none => simp
  | some r =>
    have hr : r < baseStore.length := by
      rw [lookupRef] at hfind
      cases hfind2 : baseRefs.find? (fun q => q.1 == name) with
      | none => rw [hfind2] at hfind; simp at hfind
      | some q =>
        rw [hfind2] at hfind
        have hq2 : q.2 = r := by simpa using hfind
        rw [← hq2]
        exact hb q (List.mem_of_find?_eq_some hfind2)
    show some (s.store.getD r defaultTier)
        = some (baseStore.getD r defaultTier)
    have hget : s.store.getD r defaultTier
        = (s.store.take baseStore.length).getD r defaultTier := by
      rw [List.getD_eq_getElem?_getD, List.getD_eq_getElem?_getD,
        List.getElem?_take, if_pos hr]
    rw [hget, h1]

/-- C8: a session's runtime catalogs are independently owned copies of the
base catalogs: after any sequence of field updates to the runtime tier and
shipping copies, every entry of `TIERS_BASE` still reads exactly its
originally loaded tier, and `SHIPPING_BASE` is unchanged. -/
theorem session_base_catalogs_unchanged (baseStore : List Tier)
    (baseRefs : List (String × ℕ)) (shippingBase : List (String × ℚ))
    (hb : ∀ q ∈ baseRefs, q.2 < baseStore.length)
    (us : List Update) (name : String) :
    readBaseTier (applyUpdates (initSession baseStore baseRefs shippingBase) us)
        name
      = (lookupRef baseRefs name).map (fun r => baseStore.getD r defaultTier)
    ∧ readBaseTier (initSession baseStore baseRefs shippingBase) name
      = (lookupRef baseRefs name).map (fun r => baseStore.getD r defaultTier)
    ∧ (applyUpdates (initSession baseStore baseRefs shippingBase) us).shippingBase
      = shippingBase := by
  have hinit := baseIntact_init baseStore baseRefs shippingBase
  have hfinal := baseIntact_applyUpdates baseStore baseRefs shippingBase
    (initSession baseStore baseRefs shippingBase) hinit us
  exact ⟨readBaseTier_of_baseIntact baseStore baseRefs shippingBase _ hfinal hb
      name,
    readBaseTier_of_baseIntact baseStore baseRefs shippingBase _ hinit hb name,
    hfinal.2.2.2.1⟩

theorem session_base_catalogs_unchanged_witness :
    readBaseTier
      (applyUpdates (initSession [specTier] [("Pro", 0)] [("Ground", 100)])
        [Update.setCasePrice "Pro" 900, Update.setTxPerCase "Pro" 3,
          Update.setShippingCost "Ground" 250])
      "Pro"
      = some specTier := by
  have h := session_base_catalogs_unchanged [specTier] [("Pro", 0)]
    [("Ground", 100)]
    (by intro q hq; simp only [List.mem_singleton] at hq; rw [hq]; norm_num)
    [Update.setCasePrice "Pro" 900, Update.setTxPerCase "Pro" 3,
      Update.setShippingCost "Ground" 250]
    "Pro"
  rw [h.1]
  simp [lookupRef]

end Genovia
